import Mathlib

/-!
Verification of the CloudSQLite Lambda core (`lambda/main.go`): the
DynamoDB lease lock (`acquireDynamoLock` / `releaseDynamoLock`), the S3
snapshot client (`downloadFromS3` / `uploadToS3`), the statement executor
(`executeSQL`) and the orchestrating `Handler`.

The Go code is shallowly embedded: the DynamoDB table is modelled as an
`Option LockItem` for the one resource name under consideration (DynamoDB
keys every operation by `database_name`, and every operation of one cycle
uses the same name), machine `int64` timestamps become `Int`, and the
external effects (S3, the SQLite engine) become explicit oracle inputs.
Each DynamoDB call (`GetItem`, conditional `DeleteItem`, conditional
`PutItem`) is atomic in DynamoDB, so the concurrent model interleaves
whole calls.
-/

namespace CloudSQLite

/-- LockItem mirrors the Go struct `LockItem`: one DynamoDB item of the
`CloudSQLite-Locks` table. -/
structure LockItem where
  DatabaseName : String
  InstanceID : String
  LeaseTimeout : Int
  CreatedAt : Int
deriving DecidableEq, Repr

/-- Constant `lockTimeoutMinutes = 5` from the Go source. -/
def lockTimeoutMinutes : Int := 5

/-- Lease duration in seconds: the Go code computes
`now.Add(time.Duration(lockTimeoutMinutes) * time.Minute).Unix()`, which is
`now.Unix() + lockTimeoutMinutes * 60`. -/
def leaseDurationSeconds : Int := lockTimeoutMinutes * 60

/-- Constant `dbFileName = "database.db"` from the Go source, the default
database name used when the request omits one. -/
def dbFileName : String := "database.db"

/-- Store state for one resource name: the DynamoDB item with key
`database_name = name`, or `none` when no item exists. -/
abbrev LockStore := Option LockItem

/-- Model of the Go `releaseDynamoLock`: a DynamoDB `DeleteItem` with
`ConditionExpression "instance_id = :instance_id"`. The delete succeeds
(and removes the item) exactly when an item exists and its `instance_id`
equals the given one; otherwise DynamoDB raises a conditional-check
failure, the item is untouched, and the Go function returns the error.
The result is the store after the call, paired with `true` on success. -/
def releaseDynamoLock (store : LockStore) (instanceID : String) :
    LockStore × Bool :=
  match store with
  | some r => if r.InstanceID = instanceID then (none, true) else (some r, false)
  | none => (none, false)

/-- Model of a DynamoDB `PutItem` with
`ConditionExpression "attribute_not_exists(database_name)"`: it writes the
item exactly when no item exists for the key. -/
def putItemIfAbsent (store : LockStore) (item : LockItem) :
    LockStore × Bool :=
  match store with
  | none => (some item, true)
  | some r => (some r, false)

/-- Lock item built by `acquireDynamoLock` at creation time `now`:
`LeaseTimeout = now + 300`, `CreatedAt = now`. -/
def newLockItem (databaseName instanceID : String) (now : Int) : LockItem :=
  { DatabaseName := databaseName
    InstanceID := instanceID
    LeaseTimeout := now + leaseDurationSeconds
    CreatedAt := now }

/-- Kinds of DynamoDB calls issued by `acquireDynamoLock`, recorded so the
shape of the acquisition protocol (how many store round trips, and which)
is part of the model. -/
inductive StoreOpKind where
  | getItemOp : StoreOpKind
  | deleteItemOp : StoreOpKind
  | putItemOp : StoreOpKind
deriving DecidableEq, Repr

/-- Result of one sequential run of `acquireDynamoLock`: the store after
the call, whether the lock was acquired (the Go function returning `nil`),
and the ordered list of DynamoDB calls it issued. -/
structure AcquireOutcome where
  store : LockStore
  acquired : Bool
  ops : List StoreOpKind
deriving DecidableEq, Repr

/-- Model of the Go `acquireDynamoLock` run without interference:
`GetItem`; if an item exists and `LeaseTimeout > currentTime` the function
returns the conflict error; if the item is expired it is removed via
`releaseDynamoLock` keyed by the holder id just read (a failure there is
only logged); finally `PutItem` conditioned on
`attribute_not_exists(database_name)` writes the new lease.
`currentTime` is the `time.Now().Unix()` of the staleness check and
`now` the `time.Now()` used to build the new item. -/
def acquireDynamoLock (store : LockStore) (databaseName instanceID : String)
    (currentTime now : Int) : AcquireOutcome :=
  match store with
  | some existing =>
      if existing.LeaseTimeout > currentTime then
        { store := some existing, acquired := false, ops := [.getItemOp] }
      else
        let afterDelete := (releaseDynamoLock (some existing) existing.InstanceID).1
        let put := putItemIfAbsent afterDelete (newLockItem databaseName instanceID now)
        { store := put.1, acquired := put.2
          ops := [.getItemOp, .deleteItemOp, .putItemOp] }
  | none =>
      let put := putItemIfAbsent none (newLockItem databaseName instanceID now)
      { store := put.1, acquired := put.2, ops := [.getItemOp, .putItemOp] }

/-- Row of a query result: the Go code builds one
`map[string]interface{}` per row from column names to scanned values;
values are kept abstract as strings here. -/
abbrev Row := List (String × String)

/-- Oracle for the SQLite engine underneath `executeSQL`: the outcome of
`db.Query` (column/value rows) and of `db.Exec` (rows affected), per
statement. The engine is external to the repository, so it is a parameter
of the model. -/
structure QueryEngine where
  query : String → Except String (List Row)
  exec : String → Except String Int

/-- SQLResult mirrors the Go struct `SQLResult` with its four fields
`Success`, `Data` (set only by the SELECT branch), `Message`, `Error`.
`Data = none` models the Go interface field never being assigned. -/
structure SQLResult where
  Success : Bool
  Data : Option (List Row)
  Message : String
  Error : String
deriving DecidableEq, Repr

/-- Keys of the JSON object `encoding/json` produces for a `SQLResult`:
`success` is always emitted; `data`, `message` and `error` carry
`omitempty`, so `data` appears exactly when the field was assigned and the
two strings exactly when non-empty. Field order follows the struct. -/
def sqlResultJSONKeys (r : SQLResult) : List String :=
  ["success"]
    ++ (match r.Data with | some _ => ["data"] | none => [])
    ++ (if r.Message = "" then [] else ["message"])
    ++ (if r.Error = "" then [] else ["error"])

/-- Message built by the SELECT branch of `executeSQL`. -/
def rowsReturnedMessage (n : Nat) : String :=
  "Query executed successfully, returned " ++ toString n ++ " rows"

/-- Message built by the non-SELECT branch of `executeSQL`; the affected
count appears only inside this string. -/
def rowsAffectedMessage (n : Int) : String :=
  "Query executed successfully, " ++ toString n ++ " rows affected"

/-- Statement classification from the Go source, line
`isSelect := len(sqlStatement) > 6 && sqlStatement[:6] == "SELECT"`:
a byte-level, case-sensitive prefix test with no trimming. Character
positions coincide with Go's byte positions here because `"SELECT"` is
ASCII: the first six bytes equal `"SELECT"` exactly when the first six
characters do, and then a seventh byte exists exactly when a seventh
character does. -/
def isSelectStatement (s : String) : Bool :=
  decide (s.length > 6) && (s.take 6 == "SELECT")

/-- SELECT branch of `executeSQL`: run `db.Query`, collect the rows, and
report success with the rows in `Data`. -/
def selectBranch (engine : QueryEngine) (stmt : String) :
    Except String SQLResult :=
  match engine.query stmt with
  | .error e => .error ("SELECT query failed: " ++ e)
  | .ok rows =>
      .ok { Success := true, Data := some rows
            Message := rowsReturnedMessage rows.length, Error := "" }

/-- Non-SELECT branch of `executeSQL`: run `db.Exec` and report success
with the affected count embedded in `Message` only. -/
def execBranch (engine : QueryEngine) (stmt : String) :
    Except String SQLResult :=
  match engine.exec stmt with
  | .error e => .error ("query execution failed: " ++ e)
  | .ok n =>
      .ok { Success := true, Data := none
            Message := rowsAffectedMessage n, Error := "" }

/-- Model of the Go `executeSQL`: classify by `isSelectStatement` and run
the corresponding branch against the engine. -/
def executeSQL (engine : QueryEngine) (stmt : String) :
    Except String SQLResult :=
  if isSelectStatement stmt then selectBranch engine stmt
  else execBranch engine stmt

/-- Errors an S3 `GetObject` can return: the key does not exist
(`NoSuchKey`, the never-initialized case) or any other service failure.
The Go `downloadFromS3` never inspects which of the two occurred. -/
inductive S3Error where
  | noSuchKey : S3Error
  | serviceError : S3Error
deriving DecidableEq, Repr

/-- Rendering of an `S3Error` as the error text the AWS SDK yields. -/
def s3ErrorMessage : S3Error → String
  | .noSuchKey => "NoSuchKey: The specified key does not exist."
  | .serviceError => "RequestError: service unavailable"

/-- Database snapshot blob stored in S3, kept abstract as a string of
bytes. -/
abbrev Blob := String

/-- Model of the Go `downloadFromS3`: it forwards any `GetObject` error,
of either kind, as a failure (`failed to get object from S3`); on success
the blob is materialized as the local working copy. -/
def downloadFromS3 (getObject : Except S3Error Blob) : Except String Blob :=
  match getObject with
  | .error e => .error ("failed to get object from S3: " ++ s3ErrorMessage e)
  | .ok b => .ok b

/-- Model of the Go `uploadToS3`: a `PutObject` that either succeeds or
fails as a whole. -/
def uploadToS3 (putObjectOk : Bool) : Except String Unit :=
  if putObjectOk then .ok () else .error "failed to upload object to S3"

/-- APIRequest mirrors the Go struct: `database_name` is optional and its
Go zero value is the empty string. -/
structure APIRequest where
  SQLStatement : String
  DatabaseName : String
deriving DecidableEq, Repr

/-- Body of `createErrorResponse`: success `false` and the message in the
`Error` field. -/
def createErrorBody (message : String) : SQLResult :=
  { Success := false, Data := none, Message := "", Error := message }

/-- Environment of one `Handler` invocation: the parsed request body
(`none` when `json.Unmarshal` fails), the generated instance id, the two
`time.Now()` readings inside `acquireDynamoLock`, and the oracles for S3
and the SQLite engine. `modifiedContent` is the content of the local
working copy after execution, i.e. what an upload would publish. -/
structure HandlerEnv where
  requestBody : Option APIRequest
  instanceID : String
  checkTime : Int
  makeTime : Int
  getObject : Except S3Error Blob
  engine : QueryEngine
  modifiedContent : Blob
  putObjectOk : Bool

/-- Observable outcome of one `Handler` invocation: the HTTP status and
body, the final lock-store and S3 states, and whether the release, the
upload, and the local-file removal happened during the run. -/
structure HandlerRun where
  statusCode : Nat
  body : SQLResult
  lockStore : LockStore
  s3Object : Option Blob
  releaseCalled : Bool
  uploadCalled : Bool
  localFileRemoved : Bool
deriving DecidableEq, Repr

/-- Model of the Go `Handler`, run without interference on the lock store:
parse the body (400 on failure), default the database name, validate the
statement (400 when empty), acquire the lock (409 on failure), then with
`defer releaseDynamoLock` armed: download (500 on failure), with
`defer os.Remove` armed: execute (500 on failure), upload (500 on
failure), else 200 with the execution result. The deferred release runs on
every return past the acquire. -/
def Handler (env : HandlerEnv) (lockStore : LockStore)
    (s3Object : Option Blob) : HandlerRun :=
  match env.requestBody with
  | none =>
      { statusCode := 400, body := createErrorBody "Invalid JSON in request body"
        lockStore := lockStore, s3Object := s3Object
        releaseCalled := false, uploadCalled := false, localFileRemoved := false }
  | some apiReq =>
      let databaseName := if apiReq.DatabaseName = "" then dbFileName else apiReq.DatabaseName
      if apiReq.SQLStatement = "" then
        { statusCode := 400, body := createErrorBody "SQL statement is required"
          lockStore := lockStore, s3Object := s3Object
          releaseCalled := false, uploadCalled := false, localFileRemoved := false }
      else
        let acq := acquireDynamoLock lockStore databaseName env.instanceID
          env.checkTime env.makeTime
        if acq.acquired then
          let released := (releaseDynamoLock acq.store env.instanceID).1
          match downloadFromS3 env.getObject with
          | .error msg =>
              { statusCode := 500
                body := createErrorBody ("Failed to download database: " ++ msg)
                lockStore := released, s3Object := s3Object
                releaseCalled := true, uploadCalled := false, localFileRemoved := false }
          | .ok _blob =>
              match executeSQL env.engine apiReq.SQLStatement with
              | .error msg =>
                  { statusCode := 500
                    body := createErrorBody ("SQL execution failed: " ++ msg)
                    lockStore := released, s3Object := s3Object
                    releaseCalled := true, uploadCalled := false, localFileRemoved := true }
              | .ok result =>
                  match uploadToS3 env.putObjectOk with
                  | .error msg =>
                      { statusCode := 500
                        body := createErrorBody ("Failed to upload database: " ++ msg)
                        lockStore := released, s3Object := s3Object
                        releaseCalled := true, uploadCalled := true, localFileRemoved := true }
                  | .ok _ =>
                      { statusCode := 200, body := result
                        lockStore := released, s3Object := some env.modifiedContent
                        releaseCalled := true, uploadCalled := true, localFileRemoved := true }
        else
          { statusCode := 409
            body := createErrorBody "Failed to acquire lock"
            lockStore := acq.store, s3Object := s3Object
            releaseCalled := false, uploadCalled := false, localFileRemoved := false }

/-- Control point of one worker running `acquireDynamoLock` concurrently
with others, between the atomic DynamoDB calls. `start` is before the
`GetItem`; `atDelete r` is after having read the expired record `r` and
before the fenced `DeleteItem`; `atPut` is before the conditional
`PutItem`; the two `done` states record the function's return value. The
local staleness decision is folded into the read step because it touches
no shared state. -/
inductive WorkerPC where
  | start : WorkerPC
  | atDelete : LockItem → WorkerPC
  | atPut : WorkerPC
  | doneAcquired : WorkerPC
  | doneConflict : WorkerPC
deriving DecidableEq, Repr

/-- Parameters of a race of `n` workers on one resource name: each worker
`i` has its own holder id `ids i`, staleness-check clock reading `tc i`
and item-creation clock reading `tm i`. -/
structure RaceParams (n : Nat) where
  dbName : String
  ids : Fin n → String
  tc : Fin n → Int
  tm : Fin n → Int

/-- Shared-plus-local state of the race: the DynamoDB item for the
resource and every worker's control point. -/
structure RaceConfig (n : Nat) where
  store : LockStore
  pcs : Fin n → WorkerPC

/-- One atomic step of worker `w`: exactly one DynamoDB call (or nothing
when `w` already returned). The delete is the fenced `releaseDynamoLock`
keyed by the instance id `w` read earlier, with its failure ignored, and
the put is the `attribute_not_exists` conditional write — both exactly as
in `acquireDynamoLock`. -/
def raceStep {n : Nat} (p : RaceParams n) (c : RaceConfig n) (w : Fin n) :
    RaceConfig n :=
  match c.pcs w with
  | .start =>
      match c.store with
      | none => { c with pcs := Function.update c.pcs w .atPut }
      | some r =>
          if r.LeaseTimeout > p.tc w then
            { c with pcs := Function.update c.pcs w .doneConflict }
          else
            { c with pcs := Function.update c.pcs w (.atDelete r) }
  | .atDelete r =>
      { store := (releaseDynamoLock c.store r.InstanceID).1
        pcs := Function.update c.pcs w .atPut }
  | .atPut =>
      let put := putItemIfAbsent c.store (newLockItem p.dbName (p.ids w) (p.tm w))
      { store := put.1
        pcs := Function.update c.pcs w
          (if put.2 then .doneAcquired else .doneConflict) }
  | .doneAcquired => c
  | .doneConflict => c

/-- Initial race configuration: the store holds the prior state and every
worker is about to issue its `GetItem`. -/
def raceStart (n : Nat) (store0 : LockStore) : RaceConfig n :=
  { store := store0, pcs := fun _ => .start }

/-- Interleaved execution of the race under an arbitrary schedule: the
list names which worker performs the next atomic step. -/
def raceRun {n : Nat} (p : RaceParams n) (c : RaceConfig n) :
    List (Fin n) → RaceConfig n
  | [] => c
  | w :: ws => raceRun p (raceStep p c w) ws

/-- Hypotheses of the race: the prior record (if any) is expired at every
worker's check, no worker reuses the prior holder's id, holder ids are
pairwise distinct, and the attempts overlap within one lease duration (a
worker that starts a full lease duration after another is not concurrent
with it — it would find a genuinely expired lease). -/
structure RaceHyp {n : Nat} (p : RaceParams n) (store0 : LockStore) : Prop where
  stale : ∀ r, store0 = some r → ∀ i, r.LeaseTimeout ≤ p.tc i
  freshIds : ∀ r, store0 = some r → ∀ i, p.ids i ≠ r.InstanceID
  injIds : Function.Injective p.ids
  concurrent : ∀ i j, p.tc i < p.tm j + leaseDurationSeconds

/-- Inductive invariant of the race. `storeFrom`: any record in the store
is the prior one or a winner's fresh record. `winnerHolds`: a worker that
returned success still owns the stored record. `readFrom`: a worker
heading for its delete read the prior record (a fresh record never looks
expired to a concurrent worker). `initPhase`: while the prior record is
still in place nobody has passed the delete stage. `conflictWitness`:
every conflict return was caused by some worker's success. -/
structure RaceInv {n : Nat} (p : RaceParams n) (store0 : LockStore)
    (c : RaceConfig n) : Prop where
  storeFrom : ∀ r, c.store = some r →
    store0 = some r ∨
      ∃ w, c.pcs w = .doneAcquired ∧ r = newLockItem p.dbName (p.ids w) (p.tm w)
  winnerHolds : ∀ w, c.pcs w = .doneAcquired →
    c.store = some (newLockItem p.dbName (p.ids w) (p.tm w))
  readFrom : ∀ w r, c.pcs w = .atDelete r → store0 = some r
  initPhase : ∀ r0, store0 = some r0 → c.store = some r0 →
    ∀ w, c.pcs w = .start ∨ c.pcs w = .atDelete r0
  conflictWitness : ∀ w, c.pcs w = .doneConflict →
    ∃ w', c.pcs w' = .doneAcquired

theorem raceStep_start_none {n : Nat} {p : RaceParams n} {c : RaceConfig n}
    {w : Fin n} (hpc : c.pcs w = .start) (hs : c.store = none) :
    raceStep p c w = { c with pcs := Function.update c.pcs w .atPut } := by
  unfold raceStep; rw [hpc, hs]

theorem raceStep_start_valid {n : Nat} {p : RaceParams n} {c : RaceConfig n}
    {w : Fin n} {r : LockItem} (hpc : c.pcs w = .start)
    (hs : c.store = some r) (ht : r.LeaseTimeout > p.tc w) :
    raceStep p c w = { c with pcs := Function.update c.pcs w .doneConflict } := by
  unfold raceStep; rw [hpc, hs]; simp only [if_pos ht]

theorem raceStep_start_stale {n : Nat} {p : RaceParams n} {c : RaceConfig n}
    {w : Fin n} {r : LockItem} (hpc : c.pcs w = .start)
    (hs : c.store = some r) (ht : ¬ r.LeaseTimeout > p.tc w) :
    raceStep p c w = { c with pcs := Function.update c.pcs w (.atDelete r) } := by
  unfold raceStep; rw [hpc, hs]; simp only [if_neg ht]

theorem raceStep_atDelete {n : Nat} {p : RaceParams n} {c : RaceConfig n}
    {w : Fin n} {rr : LockItem} (hpc : c.pcs w = .atDelete rr) :
    raceStep p c w =
      { store := (releaseDynamoLock c.store rr.InstanceID).1
        pcs := Function.update c.pcs w .atPut } := by
  unfold raceStep; rw [hpc]

theorem raceStep_atPut_none {n : Nat} {p : RaceParams n} {c : RaceConfig n}
    {w : Fin n} (hpc : c.pcs w = .atPut) (hs : c.store = none) :
    raceStep p c w =
      { store := some (newLockItem p.dbName (p.ids w) (p.tm w))
        pcs := Function.update c.pcs w .doneAcquired } := by
  unfold raceStep; rw [hpc, hs]; rfl

theorem raceStep_atPut_some {n : Nat} {p : RaceParams n} {c : RaceConfig n}
    {w : Fin n} {cur : LockItem} (hpc : c.pcs w = .atPut)
    (hs : c.store = some cur) :
    raceStep p c w =
      { store := some cur
        pcs := Function.update c.pcs w .doneConflict } := by
  unfold raceStep; rw [hpc, hs]; rfl

theorem raceStep_doneAcquired {n : Nat} {p : RaceParams n} {c : RaceConfig n}
    {w : Fin n} (hpc : c.pcs w = .doneAcquired) : raceStep p c w = c := by
  unfold raceStep; rw [hpc]

theorem raceStep_doneConflict {n : Nat} {p : RaceParams n} {c : RaceConfig n}
    {w : Fin n} (hpc : c.pcs w = .doneConflict) : raceStep p c w = c := by
  unfold raceStep; rw [hpc]

theorem update_pc_of_ne {n : Nat} {pcs : Fin n → WorkerPC} {w w'' : Fin n}
    {v v' : WorkerPC} (hw'' : pcs w'' = v') (hw : pcs w ≠ v') :
    Function.update pcs w v w'' = v' := by
  rcases eq_or_ne w'' w with h | h
  · subst h; exact absurd hw'' hw
  · rw [Function.update_noteq h]; exact hw''

theorem update_pc_cases {n : Nat} {pcs : Fin n → WorkerPC} {w w' : Fin n}
    {v v' : WorkerPC} (h : Function.update pcs w v w' = v') :
    (w' = w ∧ v = v') ∨ (w' ≠ w ∧ pcs w' = v') := by
  rcases eq_or_ne w' w with he | he
  · subst he; rw [Function.update_same] at h; exact Or.inl ⟨rfl, h⟩
  · rw [Function.update_noteq he] at h; exact Or.inr ⟨he, h⟩

theorem raceStep_inv {n : Nat} {p : RaceParams n} {store0 : LockStore}
    {c : RaceConfig n} (hyp : RaceHyp p store0) (hinv : RaceInv p store0 c)
    (w : Fin n) : RaceInv p store0 (raceStep p c w) := by
  obtain ⟨hSF, hWH, hRF, hIP, hCW⟩ := hinv
  rcases hpc : c.pcs w with _ | rr | _ | _ | _
  · -- worker w issues its GetItem
    have hnAcq : c.pcs w ≠ WorkerPC.doneAcquired := by
      rw [hpc]; intro h; exact WorkerPC.noConfusion h
    rcases hs : c.store with _ | r
    · -- empty store read: w heads for the conditional put
      rw [raceStep_start_none hpc hs]
      refine ⟨?_, ?_, ?_, ?_, ?_⟩
      · intro r hr; rw [hs] at hr; exact Option.noConfusion hr
      · intro w' hw'
        rcases update_pc_cases hw' with ⟨_, hv⟩ | ⟨_, hw'⟩
        · exact WorkerPC.noConfusion hv
        · have := hWH w' hw'; rw [hs] at this; exact Option.noConfusion this
      · intro w' r' hw'
        rcases update_pc_cases hw' with ⟨_, hv⟩ | ⟨_, hw'⟩
        · exact WorkerPC.noConfusion hv
        · exact hRF w' r' hw'
      · intro r0 h0 hsr; rw [hs] at hsr; exact Option.noConfusion hsr
      · intro w' hw'
        rcases update_pc_cases hw' with ⟨_, hv⟩ | ⟨_, hw'⟩
        · exact WorkerPC.noConfusion hv
        · obtain ⟨w'', hw''⟩ := hCW w' hw'
          exact ⟨w'', update_pc_of_ne hw'' hnAcq⟩
    · by_cases ht : r.LeaseTimeout > p.tc w
      · -- a valid record read: w returns the conflict error
        rw [raceStep_start_valid hpc hs ht]
        refine ⟨?_, ?_, ?_, ?_, ?_⟩
        · intro r' hr'
          rcases hSF r' hr' with h | ⟨w'', hw'', hrw⟩
          · exact Or.inl h
          · exact Or.inr ⟨w'', update_pc_of_ne hw'' hnAcq, hrw⟩
        · intro w' hw'
          rcases update_pc_cases hw' with ⟨_, hv⟩ | ⟨_, hw'⟩
          · exact WorkerPC.noConfusion hv
          · exact hWH w' hw'
        · intro w' r' hw'
          rcases update_pc_cases hw' with ⟨_, hv⟩ | ⟨_, hw'⟩
          · exact WorkerPC.noConfusion hv
          · exact hRF w' r' hw'
        · intro r0 h0 hsr
          rw [hs] at hsr
          obtain rfl : r = r0 := Option.some.inj hsr
          exact absurd ht (not_lt.mpr (hyp.stale r h0 w))
        · intro w' hw'
          rcases update_pc_cases hw' with ⟨heq, _⟩ | ⟨_, hw'⟩
          · rcases hSF r hs with h | ⟨w'', hw'', _⟩
            · exact absurd ht (not_lt.mpr (hyp.stale r h w))
            · exact ⟨w'', update_pc_of_ne hw'' hnAcq⟩
          · obtain ⟨w'', hw''⟩ := hCW w' hw'
            exact ⟨w'', update_pc_of_ne hw'' hnAcq⟩
      · -- an expired record read: w heads for the fenced delete
        rw [raceStep_start_stale hpc hs ht]
        refine ⟨?_, ?_, ?_, ?_, ?_⟩
        · intro r' hr'
          rcases hSF r' hr' with h | ⟨w'', hw'', hrw⟩
          · exact Or.inl h
          · exact Or.inr ⟨w'', update_pc_of_ne hw'' hnAcq, hrw⟩
        · intro w' hw'
          rcases update_pc_cases hw' with ⟨_, hv⟩ | ⟨_, hw'⟩
          · exact WorkerPC.noConfusion hv
          · exact hWH w' hw'
        · intro w' r' hw'
          rcases update_pc_cases hw' with ⟨_, hv⟩ | ⟨_, hw'⟩
          · obtain rfl : r = r' := by injection hv
            rcases hSF r hs with h | ⟨w'', _, hrw⟩
            · exact h
            · exfalso
              have hcon := hyp.concurrent w w''
              rw [hrw] at ht
              exact ht hcon
          · exact hRF w' r' hw'
        · intro r0 h0 hsr
          have hsr' : c.store = some r0 := hsr
          rw [hs] at hsr
          obtain rfl : r = r0 := Option.some.inj hsr
          intro w'
          rcases eq_or_ne w' w with rfl | hne
          · exact Or.inr (by simp)
          · simp only [Function.update_noteq hne]
            exact hIP r h0 hsr' w'
        · intro w' hw'
          rcases update_pc_cases hw' with ⟨_, hv⟩ | ⟨_, hw'⟩
          · exact WorkerPC.noConfusion hv
          · obtain ⟨w'', hw''⟩ := hCW w' hw'
            exact ⟨w'', update_pc_of_ne hw'' hnAcq⟩
  · -- worker w issues its fenced conditional DeleteItem
    have hnAcq : c.pcs w ≠ WorkerPC.doneAcquired := by
      rw [hpc]; intro h; exact WorkerPC.noConfusion h
    have h0 : store0 = some rr := hRF w rr hpc
    rw [raceStep_atDelete hpc]
    rcases hs : c.store with _ | cur
    · -- delete on an absent item: conditional check fails, store untouched
      simp only [releaseDynamoLock]
      refine ⟨?_, ?_, ?_, ?_, ?_⟩
      · intro r hr; exact Option.noConfusion hr
      · intro w' hw'
        rcases update_pc_cases hw' with ⟨_, hv⟩ | ⟨_, hw'⟩
        · exact WorkerPC.noConfusion hv
        · have := hWH w' hw'; rw [hs] at this; exact Option.noConfusion this
      · intro w' r' hw'
        rcases update_pc_cases hw' with ⟨_, hv⟩ | ⟨_, hw'⟩
        · exact WorkerPC.noConfusion hv
        · exact hRF w' r' hw'
      · intro r0 _ hsr; exact Option.noConfusion hsr
      · intro w' hw'
        rcases update_pc_cases hw' with ⟨_, hv⟩ | ⟨_, hw'⟩
        · exact WorkerPC.noConfusion hv
        · obtain ⟨w'', hw''⟩ := hCW w' hw'
          exact ⟨w'', update_pc_of_ne hw'' hnAcq⟩
    · by_cases hid : cur.InstanceID = rr.InstanceID
      · -- fencing condition holds: the expired record is removed
        simp only [releaseDynamoLock, if_pos hid]
        refine ⟨?_, ?_, ?_, ?_, ?_⟩
        · intro r hr; exact Option.noConfusion hr
        · intro w' hw'
          rcases update_pc_cases hw' with ⟨_, hv⟩ | ⟨_, hw'⟩
          · exact WorkerPC.noConfusion hv
          · exfalso
            have hcur := hWH w' hw'
            rw [hs] at hcur
            obtain rfl : newLockItem p.dbName (p.ids w') (p.tm w') = cur :=
              (Option.some.inj hcur).symm
            exact hyp.freshIds rr h0 w' hid
        · intro w' r' hw'
          rcases update_pc_cases hw' with ⟨_, hv⟩ | ⟨_, hw'⟩
          · exact WorkerPC.noConfusion hv
          · exact hRF w' r' hw'
        · intro r0 _ hsr; exact Option.noConfusion hsr
        · intro w' hw'
          rcases update_pc_cases hw' with ⟨_, hv⟩ | ⟨_, hw'⟩
          · exact WorkerPC.noConfusion hv
          · obtain ⟨w'', hw''⟩ := hCW w' hw'
            exfalso
            have hcur := hWH w'' hw''
            rw [hs] at hcur
            obtain rfl : newLockItem p.dbName (p.ids w'') (p.tm w'') = cur :=
              (Option.some.inj hcur).symm
            exact hyp.freshIds rr h0 w'' hid
      · -- fencing condition fails: the store is untouched
        simp only [releaseDynamoLock, if_neg hid]
        refine ⟨?_, ?_, ?_, ?_, ?_⟩
        · intro r hr
          obtain rfl : cur = r := Option.some.inj hr
          rcases hSF cur hs with h | ⟨w'', hw'', hrw⟩
          · exact Or.inl h
          · exact Or.inr ⟨w'', update_pc_of_ne hw'' hnAcq, hrw⟩
        · intro w' hw'
          rcases update_pc_cases hw' with ⟨_, hv⟩ | ⟨_, hw'⟩
          · exact WorkerPC.noConfusion hv
          · have := hWH w' hw'; rw [hs] at this; exact this
        · intro w' r' hw'
          rcases update_pc_cases hw' with ⟨_, hv⟩ | ⟨_, hw'⟩
          · exact WorkerPC.noConfusion hv
          · exact hRF w' r' hw'
        · intro r0 h0' hsr
          exfalso
          obtain rfl : cur = r0 := Option.some.inj hsr
          rw [h0'] at h0
          obtain rfl : rr = cur := (Option.some.inj h0).symm
          exact hid rfl
        · intro w' hw'
          rcases update_pc_cases hw' with ⟨_, hv⟩ | ⟨_, hw'⟩
          · exact WorkerPC.noConfusion hv
          · obtain ⟨w'', hw''⟩ := hCW w' hw'
            exact ⟨w'', update_pc_of_ne hw'' hnAcq⟩
  · -- worker w issues its conditional PutItem
    rcases hs : c.store with _ | cur
    · -- absent item: the conditional write succeeds, w wins
      rw [raceStep_atPut_none hpc hs]
      refine ⟨?_, ?_, ?_, ?_, ?_⟩
      · intro r hr
        obtain rfl : newLockItem p.dbName (p.ids w) (p.tm w) = r :=
          Option.some.inj hr
        exact Or.inr ⟨w, by simp, rfl⟩
      · intro w' hw'
        rcases update_pc_cases hw' with ⟨rfl, _⟩ | ⟨_, hw'⟩
        · rfl
        · have := hWH w' hw'; rw [hs] at this; exact Option.noConfusion this
      · intro w' r' hw'
        rcases update_pc_cases hw' with ⟨_, hv⟩ | ⟨_, hw'⟩
        · exact WorkerPC.noConfusion hv
        · exact hRF w' r' hw'
      · intro r0 h0 hsr
        exfalso
        have : (newLockItem p.dbName (p.ids w) (p.tm w)).InstanceID = r0.InstanceID := by
          rw [Option.some.inj hsr]
        exact hyp.freshIds r0 h0 w this
      · intro w' _
        exact ⟨w, by simp⟩
    · -- occupied: the conditional write fails, w returns the conflict error
      have hnAcq : c.pcs w ≠ WorkerPC.doneAcquired := by
        rw [hpc]; intro h; exact WorkerPC.noConfusion h
      rw [raceStep_atPut_some hpc hs]
      refine ⟨?_, ?_, ?_, ?_, ?_⟩
      · intro r hr
        obtain rfl : cur = r := Option.some.inj hr
        rcases hSF cur hs with h | ⟨w'', hw'', hrw⟩
        · exact Or.inl h
        · exact Or.inr ⟨w'', update_pc_of_ne hw'' hnAcq, hrw⟩
      · intro w' hw'
        rcases update_pc_cases hw' with ⟨_, hv⟩ | ⟨_, hw'⟩
        · exact WorkerPC.noConfusion hv
        · have := hWH w' hw'; rw [hs] at this
          exact this
      · intro w' r' hw'
        rcases update_pc_cases hw' with ⟨_, hv⟩ | ⟨_, hw'⟩
        · exact WorkerPC.noConfusion hv
        · exact hRF w' r' hw'
      · intro r0 h0 hsr
        exfalso
        have hsr' : c.store = some r0 := by rw [hs]; exact hsr
        rcases hIP r0 h0 hsr' w with h | h
        · rw [hpc] at h; exact WorkerPC.noConfusion h
        · rw [hpc] at h; exact WorkerPC.noConfusion h
      · intro w' hw'
        rcases update_pc_cases hw' with ⟨_, _⟩ | ⟨_, hw'⟩
        · rcases hSF cur hs with h | ⟨w'', hw'', _⟩
          · exfalso
            rcases hIP cur h hs w with hc | hc
            · rw [hpc] at hc; exact WorkerPC.noConfusion hc
            · rw [hpc] at hc; exact WorkerPC.noConfusion hc
          · exact ⟨w'', update_pc_of_ne hw'' hnAcq⟩
        · obtain ⟨w'', hw''⟩ := hCW w' hw'
          exact ⟨w'', update_pc_of_ne hw'' hnAcq⟩
  · rw [raceStep_doneAcquired hpc]; exact ⟨hSF, hWH, hRF, hIP, hCW⟩
  · rw [raceStep_doneConflict hpc]; exact ⟨hSF, hWH, hRF, hIP, hCW⟩

theorem raceStart_inv {n : Nat} (p : RaceParams n) (store0 : LockStore) :
    RaceInv p store0 (raceStart n store0) := by
  refine ⟨?_, ?_, ?_, ?_, ?_⟩
  · intro r hr; exact Or.inl hr
  · intro w hw; exact WorkerPC.noConfusion hw
  · intro w r hw; exact WorkerPC.noConfusion hw
  · intro r0 _ _ w; exact Or.inl rfl
  · intro w hw; exact WorkerPC.noConfusion hw

theorem raceRun_inv {n : Nat} {p : RaceParams n} {store0 : LockStore}
    (hyp : RaceHyp p store0) :
    ∀ (sched : List (Fin n)) (c : RaceConfig n), RaceInv p store0 c →
      RaceInv p store0 (raceRun p c sched)
  | [], _, h => h
  | w :: ws, c, h => raceRun_inv hyp ws (raceStep p c w) (raceStep_inv hyp h w)

/-- Stale record used in the concrete acquisition scenarios: its lease
expired at time `90`, before any of the times considered. -/
def raceDemoStale : LockItem :=
  { DatabaseName := "database.db", InstanceID := "lambda-0"
    LeaseTimeout := 90, CreatedAt := 40 }

/-- Two workers with distinct fresh holder ids racing at time `100` for
the resource guarded by `raceDemoStale`. -/
def raceDemoParams : RaceParams 2 :=
  { dbName := "database.db"
    ids := !["lambda-100", "lambda-200"]
    tc := ![100, 100]
    tm := ![100, 100] }

/-- C1, counterexample. The claim asserts that the check of the prior
lease's state and the write of the new lease happen as a single
conditional operation evaluated by the backing store. In the code,
`acquireDynamoLock` facing a stale record issues three separate DynamoDB
operations — an unconditional `GetItem`, then the fenced conditional
`DeleteItem`, then the conditional `PutItem` — so the staleness check is a
client-side read-then-act, not one store-evaluated conditional write. -/
theorem acquireDynamoLock_not_single_operation :
    (acquireDynamoLock (some raceDemoStale) "database.db" "lambda-100"
        100 100).ops =
      [StoreOpKind.getItemOp, StoreOpKind.deleteItemOp, StoreOpKind.putItemOp] ∧
    ((acquireDynamoLock (some raceDemoStale) "database.db" "lambda-100"
        100 100).ops).length ≠ 1 := by
  refine ⟨rfl, ?_⟩
  decide

/-- C1, amended. Lock acquisition is not a single conditional store
operation (see `acquireDynamoLock_not_single_operation`), but each of its
DynamoDB calls is individually atomic, the delete is fenced on the
previously read holder id, and the put is conditioned on absence.
Consequently, among `n + 1` concurrent `acquireDynamoLock` attempts on one
resource with pairwise-distinct holder ids none of which reuses the prior
record's id, starting from no prior valid lease (no record, or a record
expired at every worker's check) and overlapping within one lease
duration, every completed interleaving has exactly one worker acquiring
the lock and all others reporting a conflict — including two workers
racing to reclaim the same stale lease. -/
theorem acquire_race_exactly_one_winner {n : Nat} (p : RaceParams (n + 1))
    (store0 : LockStore) (hyp : RaceHyp p store0)
    (sched : List (Fin (n + 1)))
    (hdone : ∀ w, (raceRun p (raceStart (n + 1) store0) sched).pcs w = .doneAcquired ∨
      (raceRun p (raceStart (n + 1) store0) sched).pcs w = .doneConflict) :
    ∃ w, (raceRun p (raceStart (n + 1) store0) sched).pcs w = .doneAcquired ∧
      ∀ w', w' ≠ w →
        (raceRun p (raceStart (n + 1) store0) sched).pcs w' = .doneConflict := by
  have hinv : RaceInv p store0 (raceRun p (raceStart (n + 1) store0) sched) :=
    raceRun_inv hyp sched _ (raceStart_inv p store0)
  have huniq : ∀ w w',
      (raceRun p (raceStart (n + 1) store0) sched).pcs w = .doneAcquired →
      (raceRun p (raceStart (n + 1) store0) sched).pcs w' = .doneAcquired →
      w = w' := by
    intro w w' hw hw'
    have h1 := hinv.winnerHolds w hw
    have h2 := hinv.winnerHolds w' hw'
    rw [h1] at h2
    have hids : p.ids w = p.ids w' :=
      congrArg LockItem.InstanceID (Option.some.inj h2)
    exact hyp.injIds hids
  have hex : ∃ w,
      (raceRun p (raceStart (n + 1) store0) sched).pcs w = .doneAcquired := by
    rcases hdone 0 with h | h
    · exact ⟨0, h⟩
    · exact hinv.conflictWitness 0 h
  obtain ⟨w, hw⟩ := hex
  refine ⟨w, hw, ?_⟩
  intro w' hne
  rcases hdone w' with h | h
  · exact absurd (huniq w' w h hw) hne
  · exact h

/-- Witness for `acquire_race_exactly_one_winner`: two workers racing at
time `100` to reclaim `raceDemoStale` under the schedule where worker `0`
runs its three calls first; exactly one acquires. -/
theorem acquire_race_exactly_one_winner_witness :
    ∃ w, (raceRun raceDemoParams (raceStart 2 (some raceDemoStale))
        [0, 0, 0, 1]).pcs w = .doneAcquired ∧
      ∀ w', w' ≠ w →
        (raceRun raceDemoParams (raceStart 2 (some raceDemoStale))
          [0, 0, 0, 1]).pcs w' = .doneConflict :=
  acquire_race_exactly_one_winner (n := 1) raceDemoParams (some raceDemoStale)
    ⟨by intro r hr; obtain rfl := Option.some.inj hr; decide,
     by intro r hr; obtain rfl := Option.some.inj hr; decide,
     by intro a b; fin_cases a <;> fin_cases b <;> decide,
     by decide⟩
    [0, 0, 0, 1] (by decide)

/-- Record whose lease expires exactly at time `100`: neither in the past
nor in the future at a write happening at `100`. -/
def boundaryRecord : LockItem :=
  { DatabaseName := "database.db", InstanceID := "lambda-1"
    LeaseTimeout := 100, CreatedAt := 50 }

/-- C2, counterexample. The claim says the write succeeds if and only if
no record exists or the existing record's expiry is in the past at the
moment of the write. At `currentTime = 100` a record with
`LeaseTimeout = 100` exists and its expiry is not in the past, yet the
acquire succeeds, because the code reclaims whenever
`LeaseTimeout > currentTime` fails, i.e. when the expiry is merely not in
the future. -/
theorem acquire_succeeds_at_exact_expiry :
    (acquireDynamoLock (some boundaryRecord) "database.db" "lambda-2"
        100 100).acquired = true ∧
    ¬ boundaryRecord.LeaseTimeout < 100 := by
  constructor
  · rfl
  · decide

/-- C2, amended. A sequential `acquireDynamoLock` succeeds if and only if
no record exists for the resource, or the existing record's
`lease_expiry` is not in the future (`LeaseTimeout ≤ currentTime`) at the
check: a lease whose expiry is at or before the current time can be
acquired by a new holder, and a lease whose expiry is in the future
cannot — regardless of either holder id, which the right-hand side does
not mention. -/
theorem acquireDynamoLock_succeeds_iff (store : LockStore)
    (databaseName instanceID : String) (currentTime now : Int) :
    (acquireDynamoLock store databaseName instanceID currentTime now).acquired = true ↔
      store = none ∨ ∃ r, store = some r ∧ r.LeaseTimeout ≤ currentTime := by
  rcases store with _ | r
  · simp [acquireDynamoLock, putItemIfAbsent]
  · by_cases ht : r.LeaseTimeout > currentTime
    · simp [acquireDynamoLock, if_pos ht]
      omega
    · simp [acquireDynamoLock, if_neg ht, releaseDynamoLock, putItemIfAbsent]
      omega

/-- C3, confirmed. Release is fenced: with a record present,
`releaseDynamoLock` deletes it exactly when the record's holder equals the
releasing holder id; when the holder differs, the conditional check fails
(the Go function returns the error, modelled as `false`) and the other
holder's record is neither altered nor deleted — the store is returned
unchanged. -/
theorem releaseDynamoLock_fenced (store : LockStore) (r : LockItem)
    (holderId : String) (h : store = some r) :
    (r.InstanceID = holderId →
      releaseDynamoLock store holderId = (none, true)) ∧
    (r.InstanceID ≠ holderId →
      releaseDynamoLock store holderId = (store, false)) := by
  subst h
  constructor
  · intro hid; simp [releaseDynamoLock, hid]
  · intro hid; simp [releaseDynamoLock, hid]

/-- Witness for `releaseDynamoLock_fenced`: the record's own holder
deletes it; a different holder fails and leaves the record in place. -/
theorem releaseDynamoLock_fenced_witness :
    releaseDynamoLock (some boundaryRecord) "lambda-1" = (none, true) ∧
    releaseDynamoLock (some boundaryRecord) "lambda-9" =
      (some boundaryRecord, false) :=
  ⟨(releaseDynamoLock_fenced (some boundaryRecord) boundaryRecord
      "lambda-1" rfl).1 rfl,
   (releaseDynamoLock_fenced (some boundaryRecord) boundaryRecord
      "lambda-9" rfl).2 (by decide)⟩

theorem acquire_success_store (store : LockStore) (db id : String)
    (tc tm : Int)
    (h : (acquireDynamoLock store db id tc tm).acquired = true) :
    (acquireDynamoLock store db id tc tm).store =
      some (newLockItem db id tm) := by
  rcases store with _ | r
  · simp [acquireDynamoLock, putItemIfAbsent]
  · by_cases ht : r.LeaseTimeout > tc
    · simp [acquireDynamoLock, if_pos ht] at h
    · simp [acquireDynamoLock, if_neg ht, releaseDynamoLock, putItemIfAbsent]

/-- C10, confirmed. Every record written by a successful acquire satisfies
`LeaseTimeout = CreatedAt + 300` (the fixed five-minute lease duration,
`lockTimeoutMinutes * 60` seconds), and in particular its expiry is
strictly later than its creation time. -/
theorem acquired_lease_expiry_invariant (store : LockStore) (db id : String)
    (tc tm : Int)
    (h : (acquireDynamoLock store db id tc tm).acquired = true) :
    ∃ r, (acquireDynamoLock store db id tc tm).store = some r ∧
      r.LeaseTimeout = r.CreatedAt + 300 ∧ r.CreatedAt < r.LeaseTimeout := by
  refine ⟨newLockItem db id tm, acquire_success_store store db id tc tm h, ?_, ?_⟩
  · simp [newLockItem, leaseDurationSeconds, lockTimeoutMinutes]
  · simp [newLockItem, leaseDurationSeconds, lockTimeoutMinutes]

/-- Witness for `acquired_lease_expiry_invariant`: acquiring on an empty
store at time `100` writes a record with expiry `400 = 100 + 300`. -/
theorem acquired_lease_expiry_invariant_witness :
    (acquireDynamoLock none "database.db" "lambda-100" 100 100).acquired = true ∧
    ∃ r, (acquireDynamoLock none "database.db" "lambda-100" 100 100).store =
        some r ∧
      r.LeaseTimeout = r.CreatedAt + 300 ∧ r.CreatedAt < r.LeaseTimeout :=
  ⟨rfl, acquired_lease_expiry_invariant none "database.db" "lambda-100"
    100 100 rfl⟩

/-- C6, counterexample. The claim says classification is not changed by
the letter case of the leading keyword or by leading whitespace, with
`select 1` and `  SELECT 1` classified read-only just like `SELECT 1`. The
code's test `len(sqlStatement) > 6 && sqlStatement[:6] == "SELECT"` is a
case-sensitive untrimmed prefix match, so both variants flip to the
mutating classification. -/
theorem isSelect_case_and_whitespace_sensitive :
    isSelectStatement "SELECT 1" = true ∧
    isSelectStatement "select 1" = false ∧
    isSelectStatement " SELECT 1" = false :=
  ⟨rfl, rfl, rfl⟩

/-- C6, amended. The executor classifies by a brittle textual prefix
match: a statement is treated as read-only exactly when it is longer than
six characters and its first six characters are exactly `SELECT`.
Lowercasing the keyword or prepending whitespace reroutes the statement
through the mutating `db.Exec` branch, for every engine. -/
theorem executeSQL_classifies_by_prefix (engine : QueryEngine) :
    executeSQL engine "SELECT 1" = selectBranch engine "SELECT 1" ∧
    executeSQL engine "select 1" = execBranch engine "select 1" ∧
    executeSQL engine " SELECT 1" = execBranch engine " SELECT 1" ∧
    ∀ s, isSelectStatement s = (decide (s.length > 6) && (s.take 6 == "SELECT")) :=
  ⟨rfl, rfl, rfl, fun _ => rfl⟩

/-- Engine oracle on which every mutating statement affects three rows. -/
def demoExecEngine : QueryEngine :=
  { query := fun _ => Except.error "not a query"
    exec := fun _ => Except.ok 3 }

/-- Result the executor produces on `demoExecEngine` for a mutating
statement. -/
def demoInsertResult : SQLResult :=
  { Success := true, Data := none
    Message := rowsAffectedMessage 3, Error := "" }

/-- C7, counterexample. The claim says a successful mutating statement
carries the affected-row count as a distinct integer field (`affected`) of
the response. The Go `SQLResult` has no such field: the count is embedded
in the `Message` string only, and the serialized response carries exactly
the keys `success` and `message`. -/
theorem mutating_result_has_no_affected_field :
    executeSQL demoExecEngine "INSERT INTO logs VALUES (1)" =
      Except.ok demoInsertResult ∧
    demoInsertResult.Message = "Query executed successfully, 3 rows affected" ∧
    sqlResultJSONKeys demoInsertResult = ["success", "message"] ∧
    "affected" ∉ sqlResultJSONKeys demoInsertResult := by
  refine ⟨rfl, rfl, rfl, ?_⟩
  decide

/-- C7, amended. A successful mutating statement yields `success = true`
with the affected count only inside the human-readable message (`Data`
unset); a successful read-only statement yields the row sequence in the
`data` field; and no serialized result of any kind carries an `affected`
key. -/
theorem executeSQL_result_shape (engine : QueryEngine) (stmt : String) :
    (∀ n, isSelectStatement stmt = false → engine.exec stmt = Except.ok n →
      executeSQL engine stmt = Except.ok
        { Success := true, Data := none
          Message := rowsAffectedMessage n, Error := "" }) ∧
    (∀ rows, isSelectStatement stmt = true → engine.query stmt = Except.ok rows →
      executeSQL engine stmt = Except.ok
        { Success := true, Data := some rows
          Message := rowsReturnedMessage rows.length, Error := "" }) ∧
    (∀ r : SQLResult, "affected" ∉ sqlResultJSONKeys r) := by
  refine ⟨?_, ?_, ?_⟩
  · intro n hsel hexec
    simp [executeSQL, hsel, execBranch, hexec]
  · intro rows hsel hq
    simp [executeSQL, hsel, selectBranch, hq]
  · intro r
    obtain ⟨s, dta, m, e⟩ := r
    rcases dta with _ | d <;> by_cases hm : m = "" <;> by_cases he : e = "" <;>
      simp [sqlResultJSONKeys, hm, he]

/-- Engine oracle on which a query returns one row. -/
def demoQueryEngine : QueryEngine :=
  { query := fun _ => Except.ok [[("id", "1")]]
    exec := fun _ => Except.error "not an exec" }

/-- Witness for `executeSQL_result_shape`: a concrete mutating statement
and a concrete read-only statement, each evaluated. -/
theorem executeSQL_result_shape_witness :
    executeSQL demoExecEngine "INSERT INTO logs VALUES (1)" = Except.ok
      { Success := true, Data := none
        Message := rowsAffectedMessage 3, Error := "" } ∧
    executeSQL demoQueryEngine "SELECT id FROM logs" = Except.ok
      { Success := true, Data := some [[("id", "1")]]
        Message := rowsReturnedMessage 1, Error := "" } :=
  ⟨(executeSQL_result_shape demoExecEngine "INSERT INTO logs VALUES (1)").1
      3 rfl rfl,
   (executeSQL_result_shape demoQueryEngine "SELECT id FROM logs").2.1
      [[("id", "1")]] rfl rfl⟩

theorem release_after_acquire (store : LockStore) (db id : String)
    (tc tm : Int)
    (h : (acquireDynamoLock store db id tc tm).acquired = true) :
    releaseDynamoLock (acquireDynamoLock store db id tc tm).store id =
      (none, true) := by
  rw [acquire_success_store store db id tc tm h]
  simp [releaseDynamoLock, newLockItem]

/-- Engine oracle on which every statement succeeds: queries return one
row, mutations affect zero rows. -/
def demoEngine : QueryEngine :=
  { query := fun _ => Except.ok [[("test", "1")]]
    exec := fun _ => Except.ok 0 }

/-- Engine oracle on which every statement fails with a syntax error. -/
def failingEngine : QueryEngine :=
  { query := fun _ => Except.error "near INVALID: syntax error"
    exec := fun _ => Except.error "near INVALID: syntax error" }

/-- Request creating a table, with the database name omitted. -/
def demoRequest : APIRequest :=
  { SQLStatement := "CREATE TABLE logs (id INTEGER)", DatabaseName := "" }

/-- Invocation environment in which every external call succeeds. -/
def demoEnvOk : HandlerEnv :=
  { requestBody := some demoRequest
    instanceID := "lambda-100"
    checkTime := 100
    makeTime := 100
    getObject := Except.ok "dbbytes"
    engine := demoEngine
    modifiedContent := "dbbytes-modified"
    putObjectOk := true }

/-- Environment whose snapshot fetch reports that the object does not
exist — the never-initialized resource. -/
def demoEnvNotFound : HandlerEnv :=
  { demoEnvOk with getObject := Except.error S3Error.noSuchKey }

/-- Environment whose request body does not parse. -/
def demoEnvBadJSON : HandlerEnv :=
  { demoEnvOk with requestBody := none }

/-- Environment whose request has an empty SQL statement. -/
def demoEnvEmptyStmt : HandlerEnv :=
  { demoEnvOk with requestBody := some { SQLStatement := "", DatabaseName := "" } }

/-- Environment whose statement execution fails. -/
def demoEnvExecFail : HandlerEnv :=
  { demoEnvOk with engine := failingEngine }

/-- Environment whose snapshot upload fails. -/
def demoEnvUploadFail : HandlerEnv :=
  { demoEnvOk with putObjectOk := false }

/-- Lease validly held by another worker until time `400`. -/
def validLease : LockItem :=
  { DatabaseName := "database.db", InstanceID := "lambda-owner"
    LeaseTimeout := 400, CreatedAt := 100 }

/-- Result `executeSQL` produces on `demoEngine` for the create-table
statement. -/
def demoOkResult : SQLResult :=
  { Success := true, Data := none
    Message := rowsAffectedMessage 0, Error := "" }

/-- C4, confirmed. On every invocation in which the lock is acquired, the
deferred `releaseDynamoLock` runs before `Handler` returns on every exit
path — the download-failure return, the execution-failure return, the
upload-failure return and the success return — so at return the lease
record is gone from the lock store, whatever the download, execution and
upload outcomes were. -/
theorem handler_releases_on_every_path (env : HandlerEnv) (ls0 : LockStore)
    (s30 : Option Blob) (req : APIRequest)
    (hreq : env.requestBody = some req) (hstmt : req.SQLStatement ≠ "")
    (hacq : (acquireDynamoLock ls0
        (if req.DatabaseName = "" then dbFileName else req.DatabaseName)
        env.instanceID env.checkTime env.makeTime).acquired = true) :
    (Handler env ls0 s30).releaseCalled = true ∧
    (Handler env ls0 s30).lockStore = none := by
  have hrel := release_after_acquire ls0
    (if req.DatabaseName = "" then dbFileName else req.DatabaseName)
    env.instanceID env.checkTime env.makeTime hacq
  rcases hdl : downloadFromS3 env.getObject with e | b
  · simp [Handler, hreq, hstmt, hacq, hdl, hrel]
  · rcases hex : executeSQL env.engine req.SQLStatement with e2 | res
    · simp [Handler, hreq, hstmt, hacq, hdl, hex, hrel]
    · by_cases hup : env.putObjectOk
      · simp [Handler, hreq, hstmt, hacq, hdl, hex, hup, hrel, uploadToS3]
      · simp [Handler, hreq, hstmt, hacq, hdl, hex, hup, hrel, uploadToS3]

/-- Witness for `handler_releases_on_every_path`: the lock is acquired,
execution fails, and the lease is nevertheless released. -/
theorem handler_releases_on_every_path_witness :
    (Handler demoEnvExecFail none none).releaseCalled = true ∧
    (Handler demoEnvExecFail none none).lockStore = none :=
  handler_releases_on_every_path demoEnvExecFail none none demoRequest rfl
    (by decide) rfl

/-- C5, counterexample. The claim says a `NotFound` on the snapshot fetch
is treated as initialize-empty and the cycle proceeds. In the code
`downloadFromS3` forwards every `GetObject` error alike and `Handler`
aborts with status `500` without distinguishing `NoSuchKey` from a
transient store error: on a never-initialized resource the cycle aborts
and nothing proceeds with an empty database. -/
theorem handler_notfound_aborts :
    demoEnvNotFound.getObject = Except.error S3Error.noSuchKey ∧
    (Handler demoEnvNotFound none none).statusCode = 500 ∧
    (Handler demoEnvNotFound none none).uploadCalled = false ∧
    (Handler demoEnvNotFound none none).s3Object = none :=
  ⟨rfl, rfl, rfl, rfl⟩

/-- C5, amended. Any snapshot-fetch failure — the `NotFound` of a
never-initialized resource just like a transient store error — aborts the
cycle with status `500` and no upload, leaving the remote object as it
was; the lease is still released before aborting. -/
theorem handler_aborts_on_any_fetch_failure (env : HandlerEnv)
    (ls0 : LockStore) (s30 : Option Blob) (req : APIRequest) (e : S3Error)
    (hreq : env.requestBody = some req) (hstmt : req.SQLStatement ≠ "")
    (hacq : (acquireDynamoLock ls0
        (if req.DatabaseName = "" then dbFileName else req.DatabaseName)
        env.instanceID env.checkTime env.makeTime).acquired = true)
    (hget : env.getObject = Except.error e) :
    (Handler env ls0 s30).statusCode = 500 ∧
    (Handler env ls0 s30).uploadCalled = false ∧
    (Handler env ls0 s30).s3Object = s30 ∧
    (Handler env ls0 s30).releaseCalled = true ∧
    (Handler env ls0 s30).lockStore = none := by
  have hrel := release_after_acquire ls0
    (if req.DatabaseName = "" then dbFileName else req.DatabaseName)
    env.instanceID env.checkTime env.makeTime hacq
  have hdl : downloadFromS3 env.getObject =
      Except.error ("failed to get object from S3: " ++ s3ErrorMessage e) := by
    rw [hget]; rfl
  simp [Handler, hreq, hstmt, hacq, hdl, hrel]

/-- Witness for `handler_aborts_on_any_fetch_failure`: the never
initialized resource, fetched after a successful lock acquisition. -/
theorem handler_aborts_on_any_fetch_failure_witness :
    (Handler demoEnvNotFound none none).statusCode = 500 ∧
    (Handler demoEnvNotFound none none).uploadCalled = false ∧
    (Handler demoEnvNotFound none none).s3Object = none ∧
    (Handler demoEnvNotFound none none).releaseCalled = true ∧
    (Handler demoEnvNotFound none none).lockStore = none :=
  handler_aborts_on_any_fetch_failure demoEnvNotFound none none demoRequest
    S3Error.noSuchKey rfl (by decide) rfl rfl

/-- C9, confirmed. When statement execution fails, `Handler` returns the
`500` response before any upload is attempted: the remote snapshot object
is exactly the one the cycle started with, and the local working copy is
removed. -/
theorem exec_failure_leaves_remote_untouched (env : HandlerEnv)
    (ls0 : LockStore) (s30 : Option Blob) (req : APIRequest) (b : Blob)
    (msg : String)
    (hreq : env.requestBody = some req) (hstmt : req.SQLStatement ≠ "")
    (hacq : (acquireDynamoLock ls0
        (if req.DatabaseName = "" then dbFileName else req.DatabaseName)
        env.instanceID env.checkTime env.makeTime).acquired = true)
    (hdl : downloadFromS3 env.getObject = Except.ok b)
    (hex : executeSQL env.engine req.SQLStatement = Except.error msg) :
    (Handler env ls0 s30).statusCode = 500 ∧
    (Handler env ls0 s30).uploadCalled = false ∧
    (Handler env ls0 s30).s3Object = s30 ∧
    (Handler env ls0 s30).localFileRemoved = true := by
  have hrel := release_after_acquire ls0
    (if req.DatabaseName = "" then dbFileName else req.DatabaseName)
    env.instanceID env.checkTime env.makeTime hacq
  simp [Handler, hreq, hstmt, hacq, hdl, hex, hrel]

/-- Witness for `exec_failure_leaves_remote_untouched`: execution fails
and the previously published remote snapshot survives unchanged. -/
theorem exec_failure_leaves_remote_untouched_witness :
    (Handler demoEnvExecFail none (some "olddb")).statusCode = 500 ∧
    (Handler demoEnvExecFail none (some "olddb")).uploadCalled = false ∧
    (Handler demoEnvExecFail none (some "olddb")).s3Object = some "olddb" ∧
    (Handler demoEnvExecFail none (some "olddb")).localFileRemoved = true :=
  exec_failure_leaves_remote_untouched demoEnvExecFail none (some "olddb")
    demoRequest "dbbytes" "query execution failed: near INVALID: syntax error"
    rfl (by decide) rfl rfl rfl

/-- C8, confirmed. The status mapping of `Handler`: an unparseable body or
an empty statement yields `400`; a failed lock acquisition yields `409`; a
fetch, execution, or publish failure yields `500`; a fully successful
cycle yields `200`. -/
theorem handler_status_mapping (env : HandlerEnv) (ls0 : LockStore)
    (s30 : Option Blob) :
    (env.requestBody = none → (Handler env ls0 s30).statusCode = 400) ∧
    (∀ req, env.requestBody = some req → req.SQLStatement = "" →
      (Handler env ls0 s30).statusCode = 400) ∧
    (∀ req, env.requestBody = some req → req.SQLStatement ≠ "" →
      (acquireDynamoLock ls0
        (if req.DatabaseName = "" then dbFileName else req.DatabaseName)
        env.instanceID env.checkTime env.makeTime).acquired = false →
      (Handler env ls0 s30).statusCode = 409) ∧
    (∀ req e, env.requestBody = some req → req.SQLStatement ≠ "" →
      (acquireDynamoLock ls0
        (if req.DatabaseName = "" then dbFileName else req.DatabaseName)
        env.instanceID env.checkTime env.makeTime).acquired = true →
      downloadFromS3 env.getObject = Except.error e →
      (Handler env ls0 s30).statusCode = 500) ∧
    (∀ req b msg, env.requestBody = some req → req.SQLStatement ≠ "" →
      (acquireDynamoLock ls0
        (if req.DatabaseName = "" then dbFileName else req.DatabaseName)
        env.instanceID env.checkTime env.makeTime).acquired = true →
      downloadFromS3 env.getObject = Except.ok b →
      executeSQL env.engine req.SQLStatement = Except.error msg →
      (Handler env ls0 s30).statusCode = 500) ∧
    (∀ req b res, env.requestBody = some req → req.SQLStatement ≠ "" →
      (acquireDynamoLock ls0
        (if req.DatabaseName = "" then dbFileName else req.DatabaseName)
        env.instanceID env.checkTime env.makeTime).acquired = true →
      downloadFromS3 env.getObject = Except.ok b →
      executeSQL env.engine req.SQLStatement = Except.ok res →
      env.putObjectOk = false →
      (Handler env ls0 s30).statusCode = 500) ∧
    (∀ req b res, env.requestBody = some req → req.SQLStatement ≠ "" →
      (acquireDynamoLock ls0
        (if req.DatabaseName = "" then dbFileName else req.DatabaseName)
        env.instanceID env.checkTime env.makeTime).acquired = true →
      downloadFromS3 env.getObject = Except.ok b →
      executeSQL env.engine req.SQLStatement = Except.ok res →
      env.putObjectOk = true →
      (Handler env ls0 s30).statusCode = 200) := by
  refine ⟨?_, ?_, ?_, ?_, ?_, ?_, ?_⟩
  · intro hreq; simp [Handler, hreq]
  · intro req hreq hstmt; simp [Handler, hreq, hstmt]
  · intro req hreq hstmt hacq; simp [Handler, hreq, hstmt, hacq]
  · intro req e hreq hstmt hacq hdl; simp [Handler, hreq, hstmt, hacq, hdl]
  · intro req b msg hreq hstmt hacq hdl hex
    simp [Handler, hreq, hstmt, hacq, hdl, hex]
  · intro req b res hreq hstmt hacq hdl hex hup
    simp [Handler, hreq, hstmt, hacq, hdl, hex, hup, uploadToS3]
  · intro req b res hreq hstmt hacq hdl hex hup
    simp [Handler, hreq, hstmt, hacq, hdl, hex, hup, uploadToS3]

/-- Witness for `handler_status_mapping`: one concrete invocation per
status branch. -/
theorem handler_status_mapping_witness :
    (Handler demoEnvBadJSON none none).statusCode = 400 ∧
    (Handler demoEnvEmptyStmt none none).statusCode = 400 ∧
    (Handler demoEnvOk (some validLease) none).statusCode = 409 ∧
    (Handler demoEnvNotFound none none).statusCode = 500 ∧
    (Handler demoEnvExecFail none none).statusCode = 500 ∧
    (Handler demoEnvUploadFail none none).statusCode = 500 ∧
    (Handler demoEnvOk none none).statusCode = 200 :=
  ⟨(handler_status_mapping demoEnvBadJSON none none).1 rfl,
   (handler_status_mapping demoEnvEmptyStmt none none).2.1 _ rfl rfl,
   (handler_status_mapping demoEnvOk (some validLease) none).2.2.1 demoRequest
     rfl (by decide) rfl,
   (handler_status_mapping demoEnvNotFound none none).2.2.2.1 demoRequest
     "failed to get object from S3: NoSuchKey: The specified key does not exist."
     rfl (by decide) rfl rfl,
   (handler_status_mapping demoEnvExecFail none none).2.2.2.2.1 demoRequest
     "dbbytes" "query execution failed: near INVALID: syntax error" rfl
     (by decide) rfl rfl rfl,
   (handler_status_mapping demoEnvUploadFail none none).2.2.2.2.2.1 demoRequest
     "dbbytes" demoOkResult rfl (by decide) rfl rfl rfl rfl,
   (handler_status_mapping demoEnvOk none none).2.2.2.2.2.2 demoRequest
     "dbbytes" demoOkResult rfl (by decide) rfl rfl rfl rfl⟩

end CloudSQLite
